import Mathlib

/-!
Verification of the `api-eventbus-integration-demo` CDK stack.

The repository declares AWS resources with the CDK (`src/cdk/lib/mainStack.ts`,
`src/cdk/index.ts`, `src/cdk/lib/core/baseStack.ts`).  The development below is
a shallow embedding of that configuration: every resource the claims touch is
a Lean structure, and `mkMainStack` builds the record of resources exactly as
the `MainStack` constructor does, with deploy-time tokens (region, account,
ARNs, the API id, the user-pool client secret) supplied by a `DeployCtx`.
-/

namespace EventBusDemo

/-- Deploy-time values that CloudFormation resolves only at deployment:
pseudo parameters of the stack, attribute references between resources, and
the response of the `describeUserPoolClient` SDK call.  The CDK code treats
all of these as opaque tokens, so the embedding takes them as inputs. -/
structure DeployCtx where
  region : String
  account : String
  partition : String
  apiId : String
  apiEndpoint : String
  userPoolId : String
  userPoolArn : String
  userPoolClientId : String
  domainName : String
  eventBusArn : String
  queueArn : String
  logGroupArn : String
  apiDestinationArn : String
  connectionArn : String
  integrationRoleArn : String
  forwardRoleArn : String
  eventsIntegrationRef : String
  authorizedIntegrationRef : String
  authorizerId : String
  responseField : String → String

/-- `MainStackProps` from `src/cdk/lib/mainStack.ts` (extending
`BaseStackProps` from `src/cdk/lib/core/baseStack.ts`; `stackName` is the
optional field inherited from the CDK `StackProps`). -/
structure MainStackProps where
  environment : String
  application : String
  businessFunction : String
  deploymentJob : String
  deployment : String
  createdBy : String
  service : String
  version : String
  stackName : Option String
  apiBasePath : String
  rateLimit : Nat
deriving Repr

/-- JavaScript string interpolation of a possibly-undefined value, as in
the template literal on line 305 of `mainStack.ts`. -/
def jsInterp : Option String → String
  | some s => s
  | none => "undefined"

/-- An IAM policy statement (`iam.PolicyStatement`). -/
structure PolicyStatement where
  sid : Option String
  effect : String
  actions : List String
  resources : List String
deriving Repr, DecidableEq

/-- An IAM role together with the statements added by `addToPolicy`. -/
structure Role where
  roleName : String
  assumedBy : String
  statements : List PolicyStatement
deriving Repr, DecidableEq

/-- An `apigatewayv2.CfnIntegration`. -/
structure CfnIntegration where
  apiId : String
  integrationType : String
  payloadFormatVersion : String
  timeoutInMillis : Nat
  integrationSubtype : String
  credentialsArn : String
  requestParameters : List (String × String)
deriving Repr, DecidableEq

/-- An `apigatewayv2.CfnRoute`.  Fields the CDK code leaves unset are
`none`; a route with `authorizationType = none` is an open route. -/
structure CfnRoute where
  apiId : String
  routeKey : String
  target : String
  authorizationType : Option String
  authorizerId : Option String
  authorizationScopes : Option (List String)
deriving Repr, DecidableEq

/-- An SQS queue. -/
structure Queue where
  queueName : String
deriving Repr, DecidableEq

/-- A CloudWatch log group. -/
structure LogGroup where
  logGroupName : String
deriving Repr, DecidableEq

/-- A target of an EventBridge rule: its ARN and, when a dead-letter
queue is configured for it, the queue's ARN. -/
structure RuleTarget where
  arn : String
  deadLetterArn : Option String
deriving Repr, DecidableEq

/-- An EventBridge rule on the bus.  Both event patterns in the stack
constrain only the `source` field, so the pattern is its list of sources. -/
structure Rule where
  name : String
  eventBusName : String
  sourcePattern : List String
  targets : List RuleTarget
deriving Repr, DecidableEq

/-- An SSM parameter created with `ssm.StringParameter` (its CloudFormation
type is the plain `String`, not `SecureString`). -/
structure StringParameter where
  parameterName : String
  stringValue : String
  parameterType : String
deriving Repr, DecidableEq

/-- The `cr.AwsCustomResource` that reads the app client back. -/
structure AwsCustomResource where
  resourceType : String
  service : String
  action : String
deriving Repr, DecidableEq

/-- An `events.CfnConnection` with OAuth client-credentials parameters. -/
structure Connection where
  authorizationType : String
  name : String
  clientId : String
  clientSecret : String
  httpMethod : String
  authorizationEndpoint : String
  bodyParameters : List (String × String)
deriving Repr, DecidableEq

/-- An `events.CfnApiDestination`. -/
structure ApiDestination where
  name : String
  connectionArn : String
  httpMethod : String
  invocationEndpoint : String
  invocationRateLimitPerSecond : Nat
deriving Repr, DecidableEq

/-- An `events.EventBus`. -/
structure EventBus where
  eventBusName : String
deriving Repr, DecidableEq

/-- The resources declared by the `MainStack` constructor that the claims
are about. -/
structure MainStack where
  userPoolName : String
  tokenEndpoint : String
  describeUserPoolClient : AwsCustomResource
  clientSecretParameter : StringParameter
  eventBus : EventBus
  integrationRole : Role
  eventbusIntegration : CfnIntegration
  eventsRoute : CfnRoute
  authorizedIntegration : CfnIntegration
  authorizedRoute : CfnRoute
  logGroup : LogGroup
  deadLetterQueue : Queue
  logRule : Rule
  connection : Connection
  apiDestination : ApiDestination
  forwardRole : Role
  forwardRule : Rule

/-- The resource-server identifier, `const identifier = 'user'`. -/
def identifier : String := "user"

/-- The resource-server scope name, `const scopeName = 'secured'`. -/
def scopeName : String := "secured"

/-- The `MainStack` constructor of `src/cdk/lib/mainStack.ts`, line by
line.  `ctx` supplies every deploy-time token the constructor dereferences. -/
def mkMainStack (ctx : DeployCtx) (stackName : String)
    (props : MainStackProps) : MainStack :=
  let tokenEndpoint :=
    "https://" ++ ctx.domainName ++ ".auth." ++ ctx.region ++
      ".amazoncognito.com/oauth2/token"
  let poolClientSecret := ctx.responseField "UserPoolClient.ClientSecret"
  let clientSecretParameter : StringParameter :=
    { parameterName := stackName ++ "-app-client-secret"
      stringValue := poolClientSecret
      parameterType := "String" }
  { userPoolName := stackName
    tokenEndpoint := tokenEndpoint
    describeUserPoolClient :=
      { resourceType := "Custom::DescribeUserPoolClient"
        service := "CognitoIdentityServiceProvider"
        action := "describeUserPoolClient" }
    clientSecretParameter := clientSecretParameter
    eventBus := { eventBusName := stackName }
    integrationRole :=
      { roleName := stackName ++ "-api-integration-role"
        assumedBy := "apigateway.amazonaws.com"
        statements :=
          [{ sid := some "eventbridge"
             effect := "Allow"
             actions := ["events:PutEvents"]
             resources := [ctx.eventBusArn] }] }
    eventbusIntegration :=
      { apiId := ctx.apiId
        integrationType := "AWS_PROXY"
        payloadFormatVersion := "1.0"
        timeoutInMillis := 10000
        integrationSubtype := "EventBridge-PutEvents"
        credentialsArn := ctx.integrationRoleArn
        requestParameters :=
          [("Source", "external"),
           ("DetailType", "api.request"),
           ("Detail", "$request.body"),
           ("EventBusName", ctx.eventBusArn),
           ("Resources",
             "arn:" ++ ctx.partition ++ ":apigateway:" ++ ctx.region ++
               ":" ++ ctx.account ++ ":/apis/" ++ ctx.apiId)] }
    eventsRoute :=
      { apiId := ctx.apiId
        routeKey := "POST /events"
        target := "integrations/" ++ ctx.eventsIntegrationRef
        authorizationType := none
        authorizerId := none
        authorizationScopes := none }
    authorizedIntegration :=
      { apiId := ctx.apiId
        integrationType := "AWS_PROXY"
        payloadFormatVersion := "1.0"
        timeoutInMillis := 10000
        integrationSubtype := "EventBridge-PutEvents"
        credentialsArn := ctx.integrationRoleArn
        requestParameters :=
          [("Source", "eventbus.forward"),
           ("DetailType", "api.request"),
           ("Detail", "$request.body.detail"),
           ("EventBusName", ctx.eventBusArn),
           ("Resources", ctx.eventBusArn)] }
    authorizedRoute :=
      { apiId := ctx.apiId
        routeKey := "POST /authorized"
        target := "integrations/" ++ ctx.authorizedIntegrationRef
        authorizationType := some "JWT"
        authorizerId := some ctx.authorizerId
        authorizationScopes := some [identifier ++ "/" ++ scopeName] }
    logGroup := { logGroupName := stackName ++ "-events" }
    deadLetterQueue := { queueName := stackName ++ "-dlq" }
    logRule :=
      { name := stackName ++ "-log-all-events"
        eventBusName := stackName
        sourcePattern := ["external", "eventbus.forward"]
        targets :=
          [{ arn := ctx.logGroupArn, deadLetterArn := some ctx.queueArn }] }
    connection :=
      { authorizationType := "OAUTH_CLIENT_CREDENTIALS"
        name := props.environment ++ "-gentu-api"
        clientId := ctx.userPoolClientId
        clientSecret := clientSecretParameter.stringValue
        httpMethod := "POST"
        authorizationEndpoint := tokenEndpoint
        bodyParameters :=
          [("grant_type", "client_credentials"),
           ("scope", identifier ++ "/" ++ scopeName)] }
    apiDestination :=
      { name := jsInterp props.stackName ++ "-secure-api"
        connectionArn := ctx.connectionArn
        httpMethod := "POST"
        invocationEndpoint := ctx.apiEndpoint ++ "/authorized"
        invocationRateLimitPerSecond := props.rateLimit }
    forwardRole :=
      { roleName := stackName ++ "-api-destination-role"
        assumedBy := "events.amazonaws.com"
        statements :=
          [{ sid := none
             effect := "Allow"
             actions := ["events:InvokeApiDestination"]
             resources := [ctx.apiDestinationArn] }] }
    forwardRule :=
      { name := stackName ++ "-forward"
        eventBusName := stackName
        sourcePattern := ["external"]
        targets :=
          [{ arn := ctx.apiDestinationArn
             deadLetterArn := some ctx.queueArn }] } }

/-- The configuration record produced by `fromEnv` in `src/cdk/index.ts`
(one string per environment variable listed there). -/
structure Config where
  environment : String
  application : String
  version : String
  deploymentJob : String
  deployment : String
  businessFunction : String
  createdBy : String
  service : String
  stage : String
deriving Repr, DecidableEq

/-- `environmentName` from `src/cdk/index.ts` line 20: developers use
`dev` as a short name for `development`. -/
def environmentName (c : Config) : String :=
  if c.environment = "development" then "dev" else c.environment

/-- The `prefix` constant of `src/cdk/index.ts` lines 22 to 25 (renamed,
since `prefix` is a Lean keyword). -/
def stackNamePfx (c : Config) : String :=
  if environmentName c ≠ c.stage
    then c.stage ++ "-" ++ environmentName c
    else environmentName c

/-- The `environment` field of `commonProps`, `src/cdk/index.ts` line 28. -/
def commonPropsEnvironment (c : Config) : String :=
  if c.environment = "dev" then "development" else c.environment

/-- `stackName` from `src/cdk/index.ts` line 38. -/
def stackNameOf (c : Config) : String :=
  stackNamePfx c ++ "-" ++ c.service

/-- `apiBasePath` from `src/cdk/index.ts` line 39. -/
def apiBasePathOf (c : Config) : String :=
  if environmentName c = c.stage
    then c.service
    else c.stage ++ "-" ++ c.service

/-- The props object passed to `new MainStack(app, stackName, ...)` in
`src/cdk/index.ts` lines 54 to 58: the spread of `commonProps`, plus
`apiBasePath` and `rateLimit: 300`.  No `stackName` key is spread in, so
the optional `StackProps.stackName` stays unset. -/
def appProps (c : Config) : MainStackProps :=
  { environment := commonPropsEnvironment c
    application := c.application
    businessFunction := c.businessFunction
    deploymentJob := c.deploymentJob
    deployment := c.deployment
    createdBy := c.createdBy
    service := c.service
    version := c.version
    stackName := none
    apiBasePath := apiBasePathOf c
    rateLimit := 300 }

/-- The whole app of `src/cdk/index.ts`: the single `MainStack`
instantiated from the environment-derived configuration. -/
def mkApp (ctx : DeployCtx) (c : Config) : MainStack :=
  mkMainStack ctx (stackNameOf c) (appProps c)

/-- An event on the EventBridge bus, restricted to the fields the stack's
integrations set and its rules match on. -/
structure BusEvent where
  source : String
  detailType : String
  detail : String
deriving Repr, DecidableEq

/-- EventBridge pattern matching for the rules of this stack: both rules
constrain only `source`, so an event matches when its source is listed. -/
def ruleMatches (r : Rule) (e : BusEvent) : Bool :=
  r.sourcePattern.contains e.source

/-- The value an integration's request parameters assign to a key. -/
def integrationParam (i : CfnIntegration) (k : String) : String :=
  (i.requestParameters.lookup k).getD ""

/-- The event an `EventBridge-PutEvents` integration publishes for a
request whose resolved `Detail` is `detail`. -/
def publishVia (i : CfnIntegration) (detail : String) : BusEvent :=
  { source := integrationParam i "Source"
    detailType := integrationParam i "DetailType"
    detail := detail }

/-- One hop of the relay: when the forward rule matches a bus event, the
API destination POSTs it to `/authorized`, whose integration republishes
with `Detail = $request.body.detail` (the original event's detail);
otherwise the event is not forwarded. -/
def forwardStep (stk : MainStack) (e : BusEvent) : Option BusEvent :=
  if ruleMatches stk.forwardRule e
    then some (publishVia stk.authorizedIntegration e.detail)
    else none

/-- A route requires authentication when its `authorizationType` is set
(an HTTP API route with no authorization type is open). -/
def routeRequiresAuth (r : CfnRoute) : Bool :=
  r.authorizationType.isSome

/-- The property claim C1 asserts of a stack: every route it exposes
requires the caller to be authenticated. -/
def allRoutesAuthenticated (stk : MainStack) : Prop :=
  routeRequiresAuth stk.eventsRoute = true ∧
    routeRequiresAuth stk.authorizedRoute = true

/-- A concrete deploy context used to instantiate universally quantified
theorems on explicit inputs. -/
def ctx0 : DeployCtx :=
  { region := "ap-southeast-2"
    account := "123456789012"
    partition := "aws"
    apiId := "api123"
    apiEndpoint := "https://api123.execute-api.ap-southeast-2.amazonaws.com"
    userPoolId := "pool1"
    userPoolArn := "arn:aws:cognito-idp:ap-southeast-2:123456789012:userpool/pool1"
    userPoolClientId := "client1"
    domainName := "demo"
    eventBusArn := "arn:aws:events:ap-southeast-2:123456789012:event-bus/demo"
    queueArn := "arn:aws:sqs:ap-southeast-2:123456789012:demo-dlq"
    logGroupArn := "arn:aws:logs:ap-southeast-2:123456789012:log-group:demo-events"
    apiDestinationArn := "arn:aws:events:ap-southeast-2:123456789012:api-destination/demo"
    connectionArn := "arn:aws:events:ap-southeast-2:123456789012:connection/demo"
    integrationRoleArn := "arn:aws:iam::123456789012:role/demo-api-integration-role"
    forwardRoleArn := "arn:aws:iam::123456789012:role/demo-api-destination-role"
    eventsIntegrationRef := "integ1"
    authorizedIntegrationRef := "integ2"
    authorizerId := "authz1"
    responseField := fun _ => "s3cret" }

/-- Concrete stack props for the same purpose. -/
def props0 : MainStackProps :=
  { environment := "development"
    application := "demo-app"
    businessFunction := "bf"
    deploymentJob := "job"
    deployment := "dep"
    createdBy := "ci"
    service := "svc"
    version := "1"
    stackName := none
    apiBasePath := "svc"
    rateLimit := 300 }

/-- A concrete externally ingested event. -/
def evExternal : BusEvent :=
  { source := "external", detailType := "api.request", detail := "payload" }

/-- The event the relay republishes for `evExternal`. -/
def evForwarded : BusEvent :=
  { source := "eventbus.forward", detailType := "api.request"
    detail := "payload" }

/-- Matching a singleton source pattern is equality with that source. -/
theorem contains_singleton_eq (s t : String) :
    ([s].contains t) = true ↔ t = s := by
  simp [List.contains]

/-- Claim C1, counterexample: in the concrete stack `mkMainStack ctx0
"demo" props0`, the `POST /events` route has no authorization type at all,
so it is not true that every route of the API requires authentication. -/
theorem C1_counterexample :
    ¬ allRoutesAuthenticated (mkMainStack ctx0 "demo" props0) := by
  intro h
  exact absurd h.1 (by decide)

/-- Claim C1 (amended): the stack is an event-ingestion and forwarding
pipeline in which only the `POST /authorized` route requires the caller to
be authenticated (JWT, scope `user/secured`); the `POST /events` route is
open, and both routes publish their request onto the stack's event bus
through `EventBridge-PutEvents` integrations targeting the bus ARN. -/
theorem C1_amended_routes_auth (ctx : DeployCtx) (sn : String)
    (props : MainStackProps) :
    routeRequiresAuth (mkMainStack ctx sn props).authorizedRoute = true ∧
    (mkMainStack ctx sn props).authorizedRoute.authorizationType
      = some "JWT" ∧
    (mkMainStack ctx sn props).authorizedRoute.authorizationScopes
      = some ["user/secured"] ∧
    routeRequiresAuth (mkMainStack ctx sn props).eventsRoute = false ∧
    (mkMainStack ctx sn props).eventsRoute.routeKey = "POST /events" ∧
    (mkMainStack ctx sn props).authorizedRoute.routeKey
      = "POST /authorized" ∧
    (mkMainStack ctx sn props).eventsRoute.target
      = "integrations/" ++ ctx.eventsIntegrationRef ∧
    (mkMainStack ctx sn props).authorizedRoute.target
      = "integrations/" ++ ctx.authorizedIntegrationRef ∧
    (mkMainStack ctx sn props).eventbusIntegration.integrationSubtype
      = "EventBridge-PutEvents" ∧
    (mkMainStack ctx sn props).authorizedIntegration.integrationSubtype
      = "EventBridge-PutEvents" ∧
    integrationParam (mkMainStack ctx sn props).eventbusIntegration
      "EventBusName" = ctx.eventBusArn ∧
    integrationParam (mkMainStack ctx sn props).authorizedIntegration
      "EventBusName" = ctx.eventBusArn :=
  ⟨rfl, rfl, rfl, rfl, rfl, rfl, rfl, rfl, rfl, rfl, rfl, rfl⟩

/-- Claim C2: the `POST /events` route targets the event-bus integration,
whose subtype is `EventBridge-PutEvents`, whose `EventBusName` is the
stack's event bus ARN, whose `Source` is `external`, whose `DetailType` is
`api.request` and whose `Detail` is the request body. -/
theorem C2_events_route_publishes_directly (ctx : DeployCtx) (sn : String)
    (props : MainStackProps) :
    (mkMainStack ctx sn props).eventsRoute.target
      = "integrations/" ++ ctx.eventsIntegrationRef ∧
    (mkMainStack ctx sn props).eventbusIntegration.integrationSubtype
      = "EventBridge-PutEvents" ∧
    integrationParam (mkMainStack ctx sn props).eventbusIntegration
      "EventBusName" = ctx.eventBusArn ∧
    integrationParam (mkMainStack ctx sn props).eventbusIntegration
      "Source" = "external" ∧
    integrationParam (mkMainStack ctx sn props).eventbusIntegration
      "DetailType" = "api.request" ∧
    integrationParam (mkMainStack ctx sn props).eventbusIntegration
      "Detail" = "$request.body" ∧
    (mkMainStack ctx sn props).eventbusIntegration.credentialsArn
      = ctx.integrationRoleArn :=
  ⟨rfl, rfl, rfl, rfl, rfl, rfl, rfl⟩

/-- Claim C3: the forward rule matches exactly the events whose source is
`external`; its sole target is the API destination (with the dead-letter
queue attached); the API destination invokes the same API's `/authorized`
path through the OAuth client-credentials connection whose authorization
endpoint is the Cognito token endpoint. -/
theorem C3_forward_rule_subset (ctx : DeployCtx) (sn : String)
    (props : MainStackProps) :
    (mkMainStack ctx sn props).forwardRule.sourcePattern = ["external"] ∧
    (∀ e : BusEvent,
      ruleMatches (mkMainStack ctx sn props).forwardRule e = true ↔
        e.source = "external") ∧
    (mkMainStack ctx sn props).forwardRule.targets
      = [{ arn := ctx.apiDestinationArn
           deadLetterArn := some ctx.queueArn }] ∧
    (mkMainStack ctx sn props).apiDestination.invocationEndpoint
      = ctx.apiEndpoint ++ "/authorized" ∧
    (mkMainStack ctx sn props).apiDestination.connectionArn
      = ctx.connectionArn ∧
    (mkMainStack ctx sn props).connection.authorizationType
      = "OAUTH_CLIENT_CREDENTIALS" ∧
    (mkMainStack ctx sn props).connection.authorizationEndpoint
      = (mkMainStack ctx sn props).tokenEndpoint :=
  ⟨rfl,
   fun e => contains_singleton_eq "external" e.source,
   rfl, rfl, rfl, rfl, rfl⟩

/-- Claim C4: the relay never loops.  Whenever the forward rule forwards a
bus event, the event republished through the `/authorized` integration has
source `eventbus.forward`, which the forward rule (source `external` only)
does not match, so no event is forwarded twice. -/
theorem C4_no_forward_loop (ctx : DeployCtx) (sn : String)
    (props : MainStackProps) (e e₂ : BusEvent)
    (h : forwardStep (mkMainStack ctx sn props) e = some e₂) :
    e₂.source = "eventbus.forward" ∧
    forwardStep (mkMainStack ctx sn props) e₂ = none := by
  unfold forwardStep at h ⊢
  split at h
  · cases h
    exact ⟨rfl, rfl⟩
  · exact absurd h (by simp)

/-- Claim C4, witness: the concrete external event is forwarded once, to
an event of source `eventbus.forward` that is not forwarded again. -/
theorem C4_no_forward_loop_witness :
    forwardStep (mkMainStack ctx0 "demo" props0) evExternal
      = some evForwarded ∧
    evForwarded.source = "eventbus.forward" ∧
    forwardStep (mkMainStack ctx0 "demo" props0) evForwarded = none := by
  have h1 : forwardStep (mkMainStack ctx0 "demo" props0) evExternal
      = some evForwarded := rfl
  have h2 := C4_no_forward_loop ctx0 "demo" props0 evExternal evForwarded h1
  exact ⟨h1, h2.1, h2.2⟩

/-- Claim C5: the API integration role is assumable by API Gateway and
carries exactly one allow statement, granting exactly `events:PutEvents`
on exactly the stack's event bus ARN. -/
theorem C5_integration_role_least_privilege (ctx : DeployCtx) (sn : String)
    (props : MainStackProps) :
    (mkMainStack ctx sn props).integrationRole.assumedBy
      = "apigateway.amazonaws.com" ∧
    (mkMainStack ctx sn props).integrationRole.roleName
      = sn ++ "-api-integration-role" ∧
    (mkMainStack ctx sn props).integrationRole.statements
      = [{ sid := some "eventbridge"
           effect := "Allow"
           actions := ["events:PutEvents"]
           resources := [ctx.eventBusArn] }] :=
  ⟨rfl, rfl, rfl⟩

/-- Claim C6: the dead-letter queue is named `stackName-dlq`, and both the
log rule's log-group target and the forward rule's API-destination target
configure that same queue (the one queue ARN) as their dead-letter
queue. -/
theorem C6_dead_lettering_everywhere (ctx : DeployCtx) (sn : String)
    (props : MainStackProps) :
    (mkMainStack ctx sn props).deadLetterQueue.queueName = sn ++ "-dlq" ∧
    (mkMainStack ctx sn props).logRule.targets
      = [{ arn := ctx.logGroupArn, deadLetterArn := some ctx.queueArn }] ∧
    (mkMainStack ctx sn props).forwardRule.targets
      = [{ arn := ctx.apiDestinationArn
           deadLetterArn := some ctx.queueArn }] ∧
    ((mkMainStack ctx sn props).logRule.targets.map
        RuleTarget.deadLetterArn)
      = ((mkMainStack ctx sn props).forwardRule.targets.map
          RuleTarget.deadLetterArn) :=
  ⟨rfl, rfl, rfl, rfl⟩

/-- Claim C7: the log rule's source pattern is exactly the set of `Source`
values the two API integrations can emit, so every event either
integration publishes matches the log rule, whose target is the
`stackName-events` log group. -/
theorem C7_log_rule_complete (ctx : DeployCtx) (sn : String)
    (props : MainStackProps) :
    (∀ s : String,
      s ∈ (mkMainStack ctx sn props).logRule.sourcePattern ↔
        (s = integrationParam (mkMainStack ctx sn props).eventbusIntegration
              "Source" ∨
         s = integrationParam
              (mkMainStack ctx sn props).authorizedIntegration "Source")) ∧
    (∀ d : String,
      ruleMatches (mkMainStack ctx sn props).logRule
        (publishVia (mkMainStack ctx sn props).eventbusIntegration d)
        = true ∧
      ruleMatches (mkMainStack ctx sn props).logRule
        (publishVia (mkMainStack ctx sn props).authorizedIntegration d)
        = true) ∧
    (mkMainStack ctx sn props).logRule.name = sn ++ "-log-all-events" ∧
    (mkMainStack ctx sn props).logGroup.logGroupName = sn ++ "-events" ∧
    (mkMainStack ctx sn props).logRule.targets
      = [{ arn := ctx.logGroupArn, deadLetterArn := some ctx.queueArn }] := by
  refine ⟨?_, ?_, rfl, rfl, rfl⟩
  · intro s
    show s ∈ ["external", "eventbus.forward"] ↔
      (s = "external" ∨ s = "eventbus.forward")
    simp
  · intro d
    exact ⟨rfl, rfl⟩

/-- Claim C8: the API destination's invocation rate limit is the stack's
`rateLimit` prop, and the app instantiates the stack with `rateLimit:
300`, so every synthesis of the app sets it to 300. -/
theorem C8_rate_limit_300 (ctx : DeployCtx) (c : Config) :
    (mkApp ctx c).apiDestination.invocationRateLimitPerSecond
      = (appProps c).rateLimit ∧
    (appProps c).rateLimit = 300 ∧
    (∀ (sn : String) (props : MainStackProps),
      (mkMainStack ctx sn props).apiDestination.invocationRateLimitPerSecond
        = props.rateLimit) :=
  ⟨rfl, rfl, fun _ _ => rfl⟩

/-- Claim C9: the client secret read back by the
`Custom::DescribeUserPoolClient` custom resource is stored verbatim in the
plain (type `String`) SSM parameter `stackName-app-client-secret`, and the
connection's OAuth `ClientSecret` is that same parameter value. -/
theorem C9_client_secret_plumbing (ctx : DeployCtx) (sn : String)
    (props : MainStackProps) :
    (mkMainStack ctx sn props).describeUserPoolClient.resourceType
      = "Custom::DescribeUserPoolClient" ∧
    (mkMainStack ctx sn props).clientSecretParameter.parameterType
      = "String" ∧
    (mkMainStack ctx sn props).clientSecretParameter.parameterName
      = sn ++ "-app-client-secret" ∧
    (mkMainStack ctx sn props).clientSecretParameter.stringValue
      = ctx.responseField "UserPoolClient.ClientSecret" ∧
    (mkMainStack ctx sn props).connection.clientSecret
      = (mkMainStack ctx sn props).clientSecretParameter.stringValue :=
  ⟨rfl, rfl, rfl, rfl, rfl⟩

/-- Claim C10: for any fixed values of the other configuration variables,
`environment = "dev"` and `environment = "development"` yield the same
stack name (whose prefix uses `dev`), the same `environment` prop passed
to the stack (`development`), and the same API base path. -/
theorem C10_env_spelling_consistent (c : Config) :
    stackNameOf { c with environment := "dev" }
      = stackNameOf { c with environment := "development" } ∧
    environmentName { c with environment := "dev" } = "dev" ∧
    environmentName { c with environment := "development" } = "dev" ∧
    (appProps { c with environment := "dev" }).environment
      = "development" ∧
    (appProps { c with environment := "development" }).environment
      = "development" ∧
    apiBasePathOf { c with environment := "dev" }
      = apiBasePathOf { c with environment := "development" } :=
  ⟨rfl, rfl, rfl, rfl, rfl, rfl⟩

end EventBusDemo
